import Mathlib

/-!
Shallow embedding of the easy-ads frontend (React client) in Lean 4.

The embedded source files:
* `frontend/src/components/CampaignForm.jsx` — form state, product list
  operations, validation and submission;
* `frontend/src/App.jsx` — job-status polling loop, failure
  classification, reset/retry logic;
* `frontend/src/components/ImageGallery.jsx` — aspect-ratio filtering and
  per-image brand-compliance checks.

JavaScript idioms are modelled explicitly: `x || d` on strings is
`jsOrStr`/`jsOrOpt` (empty string is falsy), `String.prototype.includes`
is `jsIncludes` (substring containment on the character list), nullable
values are `Option`, and plain objects used as index-keyed maps are total
functions `Nat → Option v` (absent key = `none`).
-/

namespace EasyAds

/-- Drop whitespace from both ends of a character list. -/
def trimChars (l : List Char) : List Char :=
  ((l.dropWhile Char.isWhitespace).reverse.dropWhile Char.isWhitespace).reverse

/-- JS `s.trim()`, computed on the character list (kernel-reducible). -/
def jsTrim (s : String) : String :=
  String.mk (trimChars s.toList)

/-- JS `s || d` for a string value: the empty string is falsy. -/
def jsOrStr (s d : String) : String :=
  if s = "" then d else s

/-- JS `x || d` for a string-or-null value: null and `""` are falsy. -/
def jsOrOpt (o : Option String) (d : String) : String :=
  match o with
  | none => d
  | some s => if s = "" then d else s

/-- JS `s.includes(pat)`: substring containment, as infix of char lists. -/
def jsIncludes (s pat : String) : Bool :=
  decide (pat.toList <:+: s.toList)

/-- JS `s.trim() || null` (used for the optional form fields). -/
def trimOrNull (s : String) : Option String :=
  if jsTrim s = "" then none else some (jsTrim s)

/-! ### Data model (spec §3, shapes used by the frontend) -/

/-- CampaignRequest as emitted by `handleSubmit` in CampaignForm.jsx. -/
structure CampaignRequest where
  products : List String
  target_market : String
  target_audience : String
  brand_name : Option String
  campaign_message : Option String
deriving Repr, DecidableEq

/-- One generated image artifact (field `aspect_ratio` in the source is
called `aspect` here). -/
structure ImageArtifact where
  aspect : String
  url : Option String
  path : Option String
  size : Option (Nat × Nat)
deriving Repr, DecidableEq

/-- GenerationResult as returned by `GET /api/images/{job_id}`. -/
structure GenerationResult where
  brand_name : Option String
  campaign_message : Option String
  translated_campaign_message : Option String
  images : List ImageArtifact
deriving Repr, DecidableEq

/-! ### CampaignForm.jsx -/

/-- The five `useState` fields of `CampaignForm`. -/
structure FormState where
  products : List String
  targetMarket : String
  targetAudience : String
  brandName : String
  campaignMessage : String
deriving Repr, DecidableEq

/-- The `errors` object built by `validate` (a key is present iff the
corresponding field failed). -/
structure FormErrors where
  products : Option String
  targetMarket : Option String
  targetAudience : Option String
deriving Repr, DecidableEq

/-- JS `Object.keys(newErrors).length === 0`. -/
def FormErrors.isEmpty (e : FormErrors) : Bool :=
  e.products.isNone && e.targetMarket.isNone && e.targetAudience.isNone

/-- `products.filter(p => p.trim() !== '')`. -/
def validProducts (ps : List String) : List String :=
  ps.filter (fun p => jsTrim p != "")

/-- The `validate` callback of CampaignForm.jsx. -/
def validate (s : FormState) : FormErrors :=
  { products :=
      if (validProducts s.products).length < 2 then
        some "At least 2 products are required"
      else none
    targetMarket :=
      if jsTrim s.targetMarket = "" then some "Target market is required" else none
    targetAudience :=
      if jsTrim s.targetAudience = "" then some "Target audience is required" else none }

/-- The `handleSubmit` callback: `some request` means `onGenerate(request)`
was called; `none` means validation failed and no request was issued. -/
def handleSubmit (s : FormState) : Option CampaignRequest :=
  if (validate s).isEmpty then
    some
      { products := validProducts s.products
        target_market := s.targetMarket
        target_audience := s.targetAudience
        brand_name := trimOrNull s.brandName
        campaign_message := trimOrNull s.campaignMessage }
  else none

/-- `addProduct`: `setProducts([...products, ''])`. -/
def addProduct (ps : List String) : List String :=
  ps ++ [""]

/-- `removeProduct`: `if (products.length > 2) setProducts(products.filter((_, i) => i !== index))`. -/
def removeProduct (ps : List String) (index : Nat) : List String :=
  if ps.length > 2 then
    (ps.enum.filter (fun p => p.1 != index)).map Prod.snd
  else ps

/-- `updateProduct`: copy the array and overwrite slot `index`. -/
def updateProduct (ps : List String) (index : Nat) (value : String) : List String :=
  ps.set index value

/-- The remove (×) control is rendered iff `products.length > 2`. -/
def removeButtonShown (ps : List String) : Bool :=
  ps.length > 2

/-- One user interaction with the product list. -/
inductive FormOp where
  | add : FormOp
  | remove : Nat → FormOp
  | update : Nat → String → FormOp
deriving Repr, DecidableEq

/-- Apply one product-list operation. -/
def applyOp (ps : List String) : FormOp → List String
  | .add => addProduct ps
  | .remove i => removeProduct ps i
  | .update i v => updateProduct ps i v

/-- Apply a sequence of product-list operations. -/
def applyOps (ps : List String) (ops : List FormOp) : List String :=
  ops.foldl applyOp ps

/-- The initial `useState` values of CampaignForm, as a function of the
optional `initialData` prop (`initialData?.field || fallback`; a JS array
is truthy even when empty, so `products` is taken whenever `initialData`
is present). -/
def initFormState (initialData : Option CampaignRequest) : FormState :=
  match initialData with
  | none =>
      { products := ["", ""], targetMarket := "US", targetAudience := ""
        brandName := "", campaignMessage := "" }
  | some d =>
      { products := d.products
        targetMarket := jsOrStr d.target_market "US"
        targetAudience := jsOrStr d.target_audience ""
        brandName := jsOrOpt d.brand_name ""
        campaignMessage := jsOrOpt d.campaign_message "" }

/-! ### App.jsx — job-status polling -/

/-- The `progress` object of a status response. -/
structure ProgressInfo where
  step : String
  progress : Nat
deriving Repr, DecidableEq

/-- A parsed response of `GET /api/status/{job_id}`. -/
structure StatusResponse where
  status : String
  progress : Option ProgressInfo
  error : Option String
deriving Repr, DecidableEq

/-- The `error` state object set by App (`{ message, isSensitiveContent }`). -/
structure AppError where
  message : String
  isSensitiveContent : Bool
deriving Repr, DecidableEq

/-- What one tick of the polling interval observes: a parsed OK response,
or a failure (network error or non-OK HTTP response, both thrown). -/
inductive PollEvent where
  | ok : StatusResponse → PollEvent
  | fail : String → PollEvent
deriving Repr, DecidableEq

/-- The client-side state touched by the polling `useEffect`. `active`
is true while the interval is installed (`clearInterval` not yet called);
`imagesFetches` counts issued `GET /api/images/{job_id}` requests. -/
structure PollState where
  active : Bool
  jobStatus : Option StatusResponse
  imagesFetches : Nat
  error : Option AppError
deriving Repr, DecidableEq

/-- The polling period passed to `setInterval`, in milliseconds. -/
def pollIntervalMs : Nat := 2000

/-- `status.error && status.error.includes('sensitive')`, coerced to the
boolean classification used by the error view. -/
def isSensitiveError (e : Option String) : Bool :=
  match e with
  | none => false
  | some s => jsIncludes s "sensitive"

/-- `status.error || 'Generation failed'`. -/
def failureMessage (e : Option String) : String :=
  jsOrOpt e "Generation failed"

/-- One tick of the `setInterval` callback in App.jsx. When the interval
has been cleared no callback runs, so the state is unchanged. -/
def pollStep (st : PollState) (ev : PollEvent) : PollState :=
  if st.active then
    match ev with
    | .ok s =>
        let st1 := { st with jobStatus := some s }
        if s.status == "completed" then
          { st1 with active := false, imagesFetches := st1.imagesFetches + 1 }
        else if s.status == "failed" then
          { st1 with active := false
                     error := some { message := failureMessage s.error
                                     isSensitiveContent := isSensitiveError s.error } }
        else st1
    | .fail msg =>
        { st with active := false
                  error := some { message := msg, isSensitiveContent := false } }
  else st

/-- Run the polling loop over a sequence of observed events. -/
def pollRun (st : PollState) (evs : List PollEvent) : PollState :=
  evs.foldl pollStep st

/-- Poll state right after a job id is set (interval installed, nothing
observed, no images fetched, no error). -/
def initPollState : PollState :=
  { active := true, jobStatus := none, imagesFetches := 0, error := none }

/-- True when the last observed status is `completed`. -/
def jobCompleted (st : PollState) : Bool :=
  match st.jobStatus with
  | some s => s.status == "completed"
  | none => false

/-! ### App.jsx — app-level state, reset and retry -/

/-- The five `useState` fields of App. -/
structure AppState where
  jobId : Option String
  jobStatus : Option StatusResponse
  generatedImages : Option GenerationResult
  error : Option AppError
  lastCampaignData : Option CampaignRequest
deriving Repr, DecidableEq

/-- `handleReset(clearData)`: clears job, status, images and error;
clears the remembered campaign data only when `clearData` is true. -/
def handleReset (clearData : Bool) (st : AppState) : AppState :=
  { jobId := none, jobStatus := none, generatedImages := none, error := none
    lastCampaignData := if clearData then none else st.lastCampaignData }

/-- The retry form: rendered (with `initialData = lastCampaignData`) iff
the current error is a sensitive-content error and campaign data was
remembered; `some fs` is the initial state of the rendered form. -/
def retryFormRendered (st : AppState) : Option FormState :=
  match st.error, st.lastCampaignData with
  | some err, some d =>
      if err.isSensitiveContent then some (initFormState (some d)) else none
  | _, _ => none

/-- The blank campaign form: rendered iff no job, no images and no error
are present; it receives no `initialData`. -/
def blankFormRendered (st : AppState) : Option FormState :=
  if st.jobId.isNone && st.generatedImages.isNone && st.error.isNone then
    some (initFormState none)
  else none

/-! ### ImageGallery.jsx -/

/-- ComplianceVerdict as parsed from `POST /api/check-compliance`. -/
structure ComplianceVerdict where
  compliance_status : String
  brand_name_found : Bool
  logo_visible : Bool
  logo_description : Option String
  detected_text : List String
  compliance_notes : Option String
deriving Repr, DecidableEq

/-- The three index-keyed `useState` maps of ImageGallery. A JS object
`{...}` is a total map from index to `none` (key absent) or `some v`;
the source stores `null` at a key, modelled as `some none`. -/
structure ComplianceState where
  loading : Nat → Option Bool
  results : Nat → Option (Option ComplianceVerdict)
  errors : Nat → Option (Option String)

/-- ComplianceState with all keys absent. -/
def emptyComplianceState : ComplianceState :=
  { loading := fun _ => none, results := fun _ => none, errors := fun _ => none }

/-- Outcome of the compliance fetch, had it been issued: a parsed verdict,
or a thrown error (network failure or non-OK response detail). -/
inductive ComplianceOutcome where
  | requestOk : ComplianceVerdict → ComplianceOutcome
  | requestErr : String → ComplianceOutcome
deriving Repr, DecidableEq

/-- JS falsiness of a string-or-null value (`!x`). -/
def jsFalsyStr (o : Option String) : Bool :=
  match o with
  | none => true
  | some s => s == ""

/-- `handleCheckCompliance(imagePath, imageIndex)` of ImageGallery.jsx.
Returns the new state and whether the upstream HTTP request to
`/api/check-compliance` was issued. The spread update
`prev => ({ ...prev, [imageIndex]: v })` is `Function.update`. -/
def handleCheckCompliance (st : ComplianceState) (brandName imagePath : Option String)
    (imageIndex : Nat) (outcome : ComplianceOutcome) : ComplianceState × Bool :=
  if jsFalsyStr brandName || jsFalsyStr imagePath then
    ({ st with errors := Function.update st.errors imageIndex
                 (some (some "Missing brand name or image")) }, false)
  else
    let st1 : ComplianceState :=
      { loading := Function.update st.loading imageIndex (some true)
        errors := Function.update st.errors imageIndex (some none)
        results := Function.update st.results imageIndex (some none) }
    match outcome with
    | .requestOk r =>
        ({ st1 with results := Function.update st1.results imageIndex (some (some r))
                    loading := Function.update st1.loading imageIndex (some false) }, true)
    | .requestErr msg =>
        ({ st1 with errors := Function.update st1.errors imageIndex (some (some msg))
                    loading := Function.update st1.loading imageIndex (some false) }, true)

/-- `getImageUrl` of ImageGallery.jsx (`image.url`/`image.path` truthiness). -/
def getImageUrl (apiBaseUrl : String) (image : ImageArtifact) : Option String :=
  if jsFalsyStr image.url = false then
    some (apiBaseUrl ++ (image.url).getD "")
  else if jsFalsyStr image.path = false then
    some (apiBaseUrl ++ "/outputs/" ++ (image.path).getD "")
  else none

/-- `filteredImages`: `selectedAspectRatio ? images.filter(img =>
img.aspect_ratio === selectedAspectRatio) : images` (a selected empty
string is falsy and behaves like no selection). -/
def filteredImages (selectedAspect : Option String) (images : List ImageArtifact) :
    List ImageArtifact :=
  match selectedAspect with
  | some r =>
      if r = "" then images
      else images.filter (fun img => img.aspect == r)
  | none => images

/-! ### Verification-only definitions -/

/-- Invariant of the polling loop relating the interval flag, the last
observed status and the number of image fetches. -/
def pollInv (st : PollState) : Prop :=
  (st.active = true → st.imagesFetches = 0 ∧ jobCompleted st = false) ∧
  (st.active = false → st.imagesFetches = (if jobCompleted st then 1 else 0))

/-- A form input whose first product and target audience carry
surrounding whitespace yet pass validation. -/
def c3FormInput : FormState :=
  { products := ["  shoes ", "bags"], targetMarket := "US"
    targetAudience := " runners ", brandName := "", campaignMessage := "" }

/-! ## Helper lemmas -/

theorem jsOrStr_default_empty (s : String) : jsOrStr s "" = s := by
  by_cases h : s = "" <;> simp [jsOrStr, h]

theorem jsOrOpt_default_empty (o : Option String) : jsOrOpt o "" = o.getD "" := by
  cases o with
  | none => rfl
  | some s => by_cases h : s = "" <;> simp [jsOrOpt, h]

theorem handleSubmit_eq (s : FormState) (d : CampaignRequest)
    (hd : handleSubmit s = some d) :
    (validate s).isEmpty = true ∧
    d = { products := validProducts s.products
          target_market := s.targetMarket
          target_audience := s.targetAudience
          brand_name := trimOrNull s.brandName
          campaign_message := trimOrNull s.campaignMessage } := by
  by_cases he : (validate s).isEmpty = true
  · refine ⟨he, ?_⟩
    simp only [handleSubmit, he, if_true, Option.some.injEq] at hd
    exact hd.symm
  · exfalso
    simp only [handleSubmit, he] at hd
    simp at hd

theorem submitted_target_market_ne_empty (s : FormState) (d : CampaignRequest)
    (hd : handleSubmit s = some d) : d.target_market ≠ "" := by
  obtain ⟨he, hdq⟩ := handleSubmit_eq s d hd
  subst hdq
  intro h0
  simp only at h0
  have ht : jsTrim s.targetMarket = "" := by rw [h0]; rfl
  simp [validate, FormErrors.isEmpty, ht] at he

theorem filter_enumFrom_ne_of_lt {α : Type} (l : List α) (n i : Nat) (h : i < n) :
    (List.enumFrom n l).filter (fun p => p.1 != i) = List.enumFrom n l := by
  induction l generalizing n with
  | nil => rfl
  | cons a t ih =>
    have hne : n ≠ i := by omega
    simp [List.enumFrom, List.filter_cons, hne, ih (n + 1) (by omega)]

theorem length_filter_enumFrom_ne {α : Type} (l : List α) (n i : Nat) :
    l.length ≤ ((List.enumFrom n l).filter (fun p => p.1 != i)).length + 1 := by
  induction l generalizing n with
  | nil => simp
  | cons a t ih =>
    by_cases hni : n = i
    · subst hni
      have hrest := filter_enumFrom_ne_of_lt t (n + 1) n (by omega)
      simp [List.enumFrom, List.filter_cons, hrest, List.enumFrom_length]
    · have := ih (n + 1)
      simp [List.enumFrom, List.filter_cons, hni]
      omega

theorem removeProduct_length_ge (ps : List String) (i : Nat) (h : 2 ≤ ps.length) :
    2 ≤ (removeProduct ps i).length := by
  unfold removeProduct
  by_cases h3 : ps.length > 2
  · have hlen := length_filter_enumFrom_ne ps 0 i
    simp only [if_pos h3, List.length_map]
    have : List.enum ps = List.enumFrom 0 ps := rfl
    rw [this] at *
    omega
  · simpa [if_neg h3] using h

theorem applyOp_length_ge (ps : List String) (op : FormOp) (h : 2 ≤ ps.length) :
    2 ≤ (applyOp ps op).length := by
  cases op with
  | add => simp only [applyOp, addProduct, List.length_append]; omega
  | remove i => exact removeProduct_length_ge ps i h
  | update i v => simpa [applyOp, updateProduct] using h

theorem applyOps_length_ge (ops : List FormOp) :
    ∀ ps : List String, 2 ≤ ps.length → 2 ≤ (applyOps ps ops).length := by
  induction ops with
  | nil => intro ps h; exact h
  | cons op rest ih =>
    intro ps h
    exact ih (applyOp ps op) (applyOp_length_ge ps op h)

/-! ## Claims -/

/-- C1: for every submitted form whose products list contains fewer than
2 entries that are non-empty after trimming, validation records the
products-field error "At least 2 products are required" and `handleSubmit`
returns `none`, i.e. `onGenerate` is never called and no job is started. -/
theorem c1_too_few_products_blocks_submit (s : FormState)
    (h : (validProducts s.products).length < 2) :
    (validate s).products = some "At least 2 products are required" ∧
    handleSubmit s = none := by
  have hp : (validate s).products = some "At least 2 products are required" := by
    simp [validate, h]
  refine ⟨hp, ?_⟩
  have hne : (validate s).isEmpty = false := by
    simp [FormErrors.isEmpty, hp]
  simp [handleSubmit, hne]

theorem c1_too_few_products_blocks_submit_witness :
    (validProducts ["mtb tire"]).length < 2 ∧
    (validate ⟨["mtb tire"], "US", "ages 25-55", "", ""⟩).products =
      some "At least 2 products are required" ∧
    handleSubmit ⟨["mtb tire"], "US", "ages 25-55", "", ""⟩ = none :=
  ⟨by decide,
   c1_too_few_products_blocks_submit ⟨["mtb tire"], "US", "ages 25-55", "", ""⟩ (by decide)⟩

/-- C3 counterexample: a validation-passing submission in which neither
the first product nor the target audience is trimmed in the emitted
request, refuting "every free-text field is trimmed". -/
theorem c3_untrimmed_fields_cex :
    (handleSubmit c3FormInput).map CampaignRequest.products = some ["  shoes ", "bags"] ∧
    (handleSubmit c3FormInput).map CampaignRequest.target_audience = some " runners " ∧
    jsTrim "  shoes " ≠ "  shoes " ∧
    jsTrim " runners " ≠ " runners " := by decide

/-- C3 amended: for every submission that passes validation, the emitted
request keeps the products exactly as typed, filtered to those non-empty
after trimming (not trimmed themselves); passes target_market and
target_audience through unchanged; and trims brand_name and
campaign_message, a blank one becoming `none` rather than `""`. -/
theorem c3_normalized_submit (s : FormState) (h : (validate s).isEmpty = true) :
    handleSubmit s =
      some { products := validProducts s.products
             target_market := s.targetMarket
             target_audience := s.targetAudience
             brand_name :=
               (if jsTrim s.brandName = "" then none else some (jsTrim s.brandName))
             campaign_message :=
               (if jsTrim s.campaignMessage = "" then none
                else some (jsTrim s.campaignMessage)) } ∧
    (∀ p ∈ validProducts s.products, jsTrim p ≠ "") := by
  constructor
  · simp [handleSubmit, h, trimOrNull]
  · intro p hp
    simpa using List.of_mem_filter hp

theorem c3_normalized_submit_witness :
    handleSubmit ⟨["a", "b"], "US", "x", " Nike ", ""⟩ =
      some ⟨["a", "b"], "US", "x", some "Nike", none⟩ := by
  have h := (c3_normalized_submit ⟨["a", "b"], "US", "x", " Nike ", ""⟩ (by decide)).1
  exact h.trans (by decide)

/-- C9: starting from a products list with at least 2 entries, every
sequence of `addProduct`/`removeProduct`/`updateProduct` operations keeps
at least 2 entries; `removeProduct` is a no-op when exactly 2 remain; and
the remove control is rendered exactly when more than 2 exist. -/
theorem c9_products_invariant (ps : List String) (ops : List FormOp) (i : Nat)
    (h : 2 ≤ ps.length) :
    2 ≤ (applyOps ps ops).length ∧
    (ps.length = 2 → removeProduct ps i = ps) ∧
    removeButtonShown ps = decide (2 < ps.length) := by
  refine ⟨applyOps_length_ge ops ps h, ?_, rfl⟩
  intro h2
  simp [removeProduct, h2]

theorem pollStep_inactive (st : PollState) (ev : PollEvent) (h : st.active = false) :
    pollStep st ev = st := by
  simp [pollStep, h]

theorem pollRun_inactive (st : PollState) (evs : List PollEvent) (h : st.active = false) :
    pollRun st evs = st := by
  induction evs with
  | nil => rfl
  | cons e rest ih =>
    show List.foldl pollStep (pollStep st e) rest = st
    rw [pollStep_inactive st e h]
    exact ih

theorem pollStep_inv (st : PollState) (ev : PollEvent) (h : pollInv st) :
    pollInv (pollStep st ev) := by
  by_cases ha : st.active = true
  · obtain ⟨hf, hc⟩ := h.1 ha
    cases ev with
    | fail msg =>
      constructor
      · intro hcontra
        simp [pollStep, ha] at hcontra
      · intro _
        have hgoal : st.imagesFetches = if jobCompleted st then 1 else 0 := by
          rw [hc]
          simpa using hf
        simpa [pollStep, ha, jobCompleted] using hgoal
    | ok s =>
      by_cases hcomp : (s.status == "completed") = true
      · constructor
        · intro hcontra
          simp [pollStep, ha, hcomp] at hcontra
        · intro _
          simp [pollStep, ha, hcomp, jobCompleted, hf]
      · by_cases hfail : (s.status == "failed") = true
        · constructor
          · intro hcontra
            simp [pollStep, ha, hcomp, hfail] at hcontra
          · intro _
            simp [pollStep, ha, hcomp, hfail, jobCompleted, hf]
        · constructor
          · intro _
            simp [pollStep, ha, hcomp, hfail, jobCompleted, hf]
          · intro hcontra
            simp [pollStep, ha, hcomp, hfail] at hcontra
  · have ha' : st.active = false := by simpa using ha
    rw [pollStep_inactive st ev ha']
    exact h

theorem pollRun_inv (evs : List PollEvent) :
    ∀ st : PollState, pollInv st → pollInv (pollRun st evs) := by
  induction evs with
  | nil => intro st h; exact h
  | cons e rest ih =>
    intro st h
    exact ih (pollStep st e) (pollStep_inv st e h)

/-- C2: the client polls on the fixed 2000 ms interval while the job is
outstanding; once the interval is cleared no further tick changes the
state; observing a terminal status (`completed` or `failed`) clears the
interval; and over any run from the initial poll state the images result
is fetched exactly once when `completed` was observed and never
otherwise. -/
theorem c2_polling_terminal (evs : List PollEvent) (st : PollState) (s : StatusResponse) :
    pollIntervalMs = 2000 ∧
    (st.active = false → pollRun st evs = st) ∧
    (st.active = true → s.status = "completed" ∨ s.status = "failed" →
      (pollStep st (PollEvent.ok s)).active = false) ∧
    (pollRun initPollState evs).imagesFetches =
      (if jobCompleted (pollRun initPollState evs) then 1 else 0) := by
  refine ⟨rfl, fun h => pollRun_inactive st evs h, ?_, ?_⟩
  · intro ha hterm
    rcases hterm with h | h <;> simp [pollStep, ha, h]
  · have hinv := pollRun_inv evs initPollState (by constructor <;> simp [initPollState, jobCompleted])
    by_cases hact : (pollRun initPollState evs).active = true
    · obtain ⟨hf, hc⟩ := hinv.1 hact
      simp [hf, hc]
    · exact hinv.2 (by simpa using hact)

theorem c2_polling_terminal_witness :
    pollIntervalMs = 2000 ∧
    pollRun ⟨false, none, 0, none⟩ [PollEvent.fail "network"] = ⟨false, none, 0, none⟩ ∧
    (pollStep initPollState (PollEvent.ok ⟨"completed", none, none⟩)).active = false ∧
    (pollRun initPollState [PollEvent.ok ⟨"completed", none, none⟩]).imagesFetches =
      (if jobCompleted (pollRun initPollState [PollEvent.ok ⟨"completed", none, none⟩])
       then 1 else 0) := by
  have ha := c2_polling_terminal [PollEvent.fail "network"] ⟨false, none, 0, none⟩
    ⟨"completed", none, none⟩
  have hb := c2_polling_terminal [PollEvent.ok ⟨"completed", none, none⟩] initPollState
    ⟨"completed", none, none⟩
  exact ⟨ha.1, ha.2.1 rfl, hb.2.2.1 rfl (Or.inl rfl), hb.2.2.2⟩

/-- C4: a polled `failed` status is classified as a sensitive-content
failure exactly when it carries an error message containing the substring
"sensitive"; a failed status with no error message is classified as a
generic, non-sensitive failure. -/
theorem c4_failure_classification (st : PollState) (e : Option String)
    (pr : Option ProgressInfo) (h : st.active = true) :
    (pollStep st (PollEvent.ok { status := "failed", progress := pr, error := e })).error =
      some { message := failureMessage e, isSensitiveContent := isSensitiveError e } ∧
    (isSensitiveError e = true ↔ ∃ s, e = some s ∧ "sensitive".toList <:+: s.toList) ∧
    isSensitiveError none = false := by
  refine ⟨?_, ?_, rfl⟩
  · simp [pollStep, h]
  · cases e with
    | none => simp [isSensitiveError]
    | some s =>
      simp only [isSensitiveError, jsIncludes, decide_eq_true_eq, Option.some.injEq]
      constructor
      · intro hin
        exact ⟨s, rfl, hin⟩
      · rintro ⟨t, ht, hin⟩
        cases ht
        exact hin

theorem c4_failure_classification_witness :
    (pollStep initPollState
        (PollEvent.ok ⟨"failed", none, some "output flagged as sensitive"⟩)).error =
      some ⟨"output flagged as sensitive", true⟩ ∧
    (pollStep initPollState (PollEvent.ok ⟨"failed", none, none⟩)).error =
      some ⟨"Generation failed", false⟩ := by
  have h1 := (c4_failure_classification initPollState (some "output flagged as sensitive")
    none rfl).1
  have h2 := (c4_failure_classification initPollState none none rfl).1
  exact ⟨h1.trans (by decide), h2.trans (by decide)⟩

/-- C10: if a single status poll fails (network error or non-OK HTTP
response), the interval is cleared, a non-sensitive error is recorded, and
no later tick changes the state — polling never resumes for that job,
whatever statuses the server would have reported afterwards. -/
theorem c10_poll_error_stops (st : PollState) (msg : String) (evs : List PollEvent)
    (h : st.active = true) :
    (pollStep st (PollEvent.fail msg)).active = false ∧
    (pollStep st (PollEvent.fail msg)).error =
      some { message := msg, isSensitiveContent := false } ∧
    pollRun (pollStep st (PollEvent.fail msg)) evs = pollStep st (PollEvent.fail msg) := by
  have h1 : pollStep st (PollEvent.fail msg) =
      { st with active := false, error := some ⟨msg, false⟩ } := by
    simp [pollStep, h]
  refine ⟨by rw [h1], by rw [h1], pollRun_inactive _ _ (by rw [h1])⟩

theorem c10_poll_error_stops_witness :
    (pollStep initPollState (PollEvent.fail "Failed to fetch status")).active = false ∧
    (pollStep initPollState (PollEvent.fail "Failed to fetch status")).error =
      some ⟨"Failed to fetch status", false⟩ ∧
    pollRun (pollStep initPollState (PollEvent.fail "Failed to fetch status"))
        [PollEvent.ok ⟨"completed", none, none⟩] =
      pollStep initPollState (PollEvent.fail "Failed to fetch status") :=
  c10_poll_error_stops initPollState "Failed to fetch status"
    [PollEvent.ok ⟨"completed", none, none⟩] rfl

theorem c9_products_invariant_witness :
    2 ≤ (applyOps ["", ""] [FormOp.add, FormOp.remove 0, FormOp.remove 0]).length ∧
    (removeProduct ["", ""] 0 = ["", ""]) ∧
    removeButtonShown ["", ""] = decide (2 < (["", ""] : List String).length) := by
  have h := c9_products_invariant ["", ""] [FormOp.add, FormOp.remove 0, FormOp.remove 0] 0
    (by decide)
  exact ⟨h.1, h.2.1 (by decide), h.2.2⟩

/-- C5: when the brand name or the image reference is absent, the
compliance check records the invalid-input error
"Missing brand name or image" for that image and issues no upstream
request (second component `false`), leaving the loading and results maps
untouched. -/
theorem c5_missing_input_no_upstream (st : ComplianceState)
    (brandName imagePath : Option String) (i : Nat) (outcome : ComplianceOutcome)
    (h : brandName = none ∨ imagePath = none) :
    (handleCheckCompliance st brandName imagePath i outcome).2 = false ∧
    (handleCheckCompliance st brandName imagePath i outcome).1.errors i =
      some (some "Missing brand name or image") ∧
    (handleCheckCompliance st brandName imagePath i outcome).1.loading = st.loading ∧
    (handleCheckCompliance st brandName imagePath i outcome).1.results = st.results := by
  have hguard : (jsFalsyStr brandName || jsFalsyStr imagePath) = true := by
    rcases h with h | h <;> simp [h, jsFalsyStr]
  simp [handleCheckCompliance, hguard, Function.update_same]

theorem c5_missing_input_no_upstream_witness :
    (handleCheckCompliance emptyComplianceState none (some "img.png") 0
        (ComplianceOutcome.requestErr "never sent")).2 = false ∧
    (handleCheckCompliance emptyComplianceState none (some "img.png") 0
        (ComplianceOutcome.requestErr "never sent")).1.errors 0 =
      some (some "Missing brand name or image") := by
  have h := c5_missing_input_no_upstream emptyComplianceState none (some "img.png") 0
    (ComplianceOutcome.requestErr "never sent") (Or.inl rfl)
  exact ⟨h.1, h.2.1⟩

/-- C6: gallery filtering is a pure function of the in-memory image list:
with an aspect ratio `r` selected, the rendered list is exactly the
filter of the images whose aspect ratio equals `r`, a sublist of the
original (order preserved); with no selection all images are rendered. -/
theorem c6_gallery_filter (images : List ImageArtifact) (r : String)
    (img : ImageArtifact) (hr : r ≠ "") :
    filteredImages (some r) images =
      images.filter (fun i => ImageArtifact.aspect i == r) ∧
    List.Sublist (filteredImages (some r) images) images ∧
    (img ∈ filteredImages (some r) images ↔
      img ∈ images ∧ ImageArtifact.aspect img = r) ∧
    filteredImages none images = images := by
  have hf : filteredImages (some r) images =
      images.filter (fun i => ImageArtifact.aspect i == r) := by
    simp [filteredImages, hr]
  refine ⟨hf, ?_, ?_, rfl⟩
  · rw [hf]
    exact List.filter_sublist images
  · rw [hf]
    simp [List.mem_filter]

theorem c6_gallery_filter_witness :
    filteredImages (some "1:1") [⟨"1:1", none, some "a.png", none⟩,
        ⟨"16:9", none, some "b.png", none⟩, ⟨"1:1", none, some "c.png", none⟩] =
      [⟨"1:1", none, some "a.png", none⟩, ⟨"1:1", none, some "c.png", none⟩] ∧
    filteredImages none [⟨"1:1", none, some "a.png", none⟩,
        ⟨"16:9", none, some "b.png", none⟩, ⟨"1:1", none, some "c.png", none⟩] =
      [⟨"1:1", none, some "a.png", none⟩, ⟨"16:9", none, some "b.png", none⟩,
        ⟨"1:1", none, some "c.png", none⟩] := by
  have h := c6_gallery_filter [⟨"1:1", none, some "a.png", none⟩,
      ⟨"16:9", none, some "b.png", none⟩, ⟨"1:1", none, some "c.png", none⟩] "1:1"
    ⟨"1:1", none, some "a.png", none⟩ (by decide)
  exact ⟨h.1.trans (by decide), h.2.2.2⟩

/-- C7: after a sensitive-content failure the retry form is rendered with
the previously submitted campaign data — products, target market, target
audience, brand name and campaign message all initialized from the prior
request (a `none` optional field showing as the empty input) — whereas a
non-sensitive failure renders no pre-filled form and its retry resets to
the blank form (two empty products, market "US", everything else empty). -/
theorem c7_retry_prefill (s : FormState) (d : CampaignRequest) (st : AppState)
    (err : AppError) (hd : handleSubmit s = some d) :
    (err.isSensitiveContent = true →
      retryFormRendered { st with error := some err, lastCampaignData := some d } =
        some { products := d.products
               targetMarket := d.target_market
               targetAudience := d.target_audience
               brandName := (d.brand_name).getD ""
               campaignMessage := (d.campaign_message).getD "" }) ∧
    (err.isSensitiveContent = false →
      retryFormRendered { st with error := some err, lastCampaignData := some d } = none ∧
      (handleReset true
          { st with error := some err, lastCampaignData := some d }).lastCampaignData =
        none ∧
      blankFormRendered (handleReset true
          { st with error := some err, lastCampaignData := some d }) =
        some (initFormState none)) ∧
    initFormState none =
      { products := ["", ""], targetMarket := "US", targetAudience := ""
        brandName := "", campaignMessage := "" } := by
  refine ⟨?_, ?_, rfl⟩
  · intro hs
    have hm : d.target_market ≠ "" := submitted_target_market_ne_empty s d hd
    simp [retryFormRendered, hs, initFormState, jsOrStr, hm,
      jsOrStr_default_empty, jsOrOpt_default_empty]
    intro h
    exact h.symm
  · intro hs
    exact ⟨by simp [retryFormRendered, hs], rfl, rfl⟩

theorem c7_retry_prefill_witness :
    retryFormRendered
        { jobId := none, jobStatus := none, generatedImages := none
          error := some ⟨"content flagged as sensitive", true⟩
          lastCampaignData := some ⟨["a", "b"], "US", "x", none, none⟩ } =
      some ⟨["a", "b"], "US", "x", "", ""⟩ ∧
    retryFormRendered
        { jobId := none, jobStatus := none, generatedImages := none
          error := some ⟨"boom", false⟩
          lastCampaignData := some ⟨["a", "b"], "US", "x", none, none⟩ } = none := by
  have h1 := c7_retry_prefill ⟨["a", "b"], "US", "x", "", ""⟩
    ⟨["a", "b"], "US", "x", none, none⟩ ⟨none, none, none, none, none⟩
    ⟨"content flagged as sensitive", true⟩ (by decide)
  have h2 := c7_retry_prefill ⟨["a", "b"], "US", "x", "", ""⟩
    ⟨["a", "b"], "US", "x", none, none⟩ ⟨none, none, none, none, none⟩
    ⟨"boom", false⟩ (by decide)
  exact ⟨(h1.1 rfl).trans (by decide), (h2.2.1 rfl).1⟩

/-- C8: a compliance check for image index `i` changes only the entries
at key `i` of the loading, results and errors maps; for every other index
`j` all three maps are unchanged, whichever path the check takes (guard
failure, successful request, or failed request). -/
theorem c8_per_image_frame (st : ComplianceState) (brandName imagePath : Option String)
    (i : Nat) (outcome : ComplianceOutcome) (j : Nat) (hj : j ≠ i) :
    (handleCheckCompliance st brandName imagePath i outcome).1.loading j = st.loading j ∧
    (handleCheckCompliance st brandName imagePath i outcome).1.results j = st.results j ∧
    (handleCheckCompliance st brandName imagePath i outcome).1.errors j = st.errors j := by
  unfold handleCheckCompliance
  by_cases hguard : (jsFalsyStr brandName || jsFalsyStr imagePath) = true
  · simp [hguard, Function.update_noteq hj]
  · cases outcome <;>
      simp [hguard, Function.update_noteq hj]

theorem c8_per_image_frame_witness :
    (handleCheckCompliance emptyComplianceState (some "Nike") (some "img.png") 0
        (ComplianceOutcome.requestOk ⟨"compliant", true, true, none, [], none⟩)).1.loading 1 =
      emptyComplianceState.loading 1 ∧
    (handleCheckCompliance emptyComplianceState (some "Nike") (some "img.png") 0
        (ComplianceOutcome.requestOk ⟨"compliant", true, true, none, [], none⟩)).1.results 1 =
      emptyComplianceState.results 1 ∧
    (handleCheckCompliance emptyComplianceState (some "Nike") (some "img.png") 0
        (ComplianceOutcome.requestOk ⟨"compliant", true, true, none, [], none⟩)).1.errors 1 =
      emptyComplianceState.errors 1 :=
  c8_per_image_frame emptyComplianceState (some "Nike") (some "img.png") 0
    (ComplianceOutcome.requestOk ⟨"compliant", true, true, none, [], none⟩) 1 (by decide)

end EasyAds
